import Mathlib

/-!
Shallow embedding of the Airtable REST client in `src/data/airtable_client.py`:
the retrying transport loop `_request`, the paginated reader `get_records`,
and the chunked writer `batch_update` / `_dispatch_batch`.

The network is modelled as an oracle: a function from the attempt counter
(equivalently, the number of transport calls already made inside one logical
request) to the outcome of that transport call.  Pagination and batching are
modelled over per-page / per-chunk logical-request results, mirroring the fact
that every page fetch and every chunk dispatch is its own `_request` call.
Sleep durations are rational numbers (the Python module only ever computes
`float` values from decimal literals and integer arithmetic on them).
-/

/-- Exceptions the module can raise.  `airtableError` and
`airtableAuthenticationError` embed the two classes declared in the file
(the latter is a subclass of the former); `valueError` embeds Python's
built-in `ValueError`, which is outside the module's error taxonomy. -/
inductive PyError where
  | airtableError (msg : String)
  | airtableAuthenticationError (msg : String)
  | valueError (msg : String)
deriving DecidableEq, Repr

/-- Membership in the `AirtableError` taxonomy (a subclass test):
`AirtableAuthenticationError` is a subclass of `AirtableError`,
while `ValueError` is unrelated to it. -/
def PyError.isAirtableError : PyError → Bool
  | .airtableError _ => true
  | .airtableAuthenticationError _ => true
  | .valueError _ => false

/-- Subclass test for `AirtableAuthenticationError`. -/
def PyError.isAuthenticationError : PyError → Bool
  | .airtableAuthenticationError _ => true
  | _ => false

instance exceptDecEq {ε α : Type} [DecidableEq ε] [DecidableEq α] :
    DecidableEq (Except ε α) := fun a b =>
  match a, b with
  | .ok x, .ok y =>
      if h : x = y then .isTrue (by rw [h]) else .isFalse (by simp [h])
  | .error x, .error y =>
      if h : x = y then .isTrue (by rw [h]) else .isFalse (by simp [h])
  | .ok _, .error _ => .isFalse (by simp)
  | .error _, .ok _ => .isFalse (by simp)

/-- The part of a JSON response body the client reads: `response.json()` is a
dict, inspected only through `.get("records", [])` and `.get("offset")`.
`α` is the (opaque) type of one record dict. -/
structure Body (α : Type) where
  records : Option (List α)
  offset : Option String
deriving DecidableEq, Repr

/-- One HTTP response: its status code, its `Retry-After` header (as returned
by `response.headers.get("Retry-After")`), its parsed JSON body, and its
`response.text`. -/
structure Response (α : Type) where
  status : Nat
  retryAfter : Option String
  body : Body α
  text : String
deriving DecidableEq, Repr

/-- Outcome of one transport call: either `requests.request` raised a
`requests.RequestException` (network failure), or it returned a response. -/
inductive AttemptResult (α : Type) where
  | networkFailure
  | response (r : Response α)
deriving DecidableEq, Repr

/-- The environment-derived configuration: `os.getenv("AIRTABLE_API_KEY")`
and `os.getenv("AIRTABLE_BASE_ID")` (each `None` when unset). -/
structure Config where
  apiKey : Option String
  baseId : Option String
deriving DecidableEq, Repr

/-- Python truthiness of an optional string: `None` and `""` are falsy. -/
def truthyStr : Option String → Bool
  | none => false
  | some s => !s.isEmpty

/-- The guard of `_headers`: `if not API_KEY or not BASE_ID`. -/
def headersCheckFails (cfg : Config) : Bool :=
  !truthyStr cfg.apiKey || !truthyStr cfg.baseId

def MAX_RETRIES : Nat := 5

def BACKOFF_SECONDS : ℚ := 2

def authMsg : String :=
  "AIRTABLE_API_KEY and AIRTABLE_BASE_ID must be set in the environment."

def exhaustedMsg : String := "Exceeded retry budget for Airtable request"

def statusErrMsg (status : Nat) (text : String) : String :=
  "Airtable responded with " ++ toString status ++ ": " ++ text

/-- Whitespace stripped by Python's `float(str)` before parsing. -/
def isPySpace (c : Char) : Bool :=
  c = ' ' || c = '\t' || c = '\n' || c = '\r' || c = '\x0b' || c = '\x0c'

/-- Numeric value of a digit string (most significant first). -/
def digitsToNat (l : List Char) : Nat :=
  l.foldl (fun a c => a * 10 + (c.toNat - 48)) 0

/-- Value of a parsed decimal literal: sign, integer part, fractional part,
exponent sign and exponent digits. -/
def floatValue (neg : Bool) (ip fp : List Char) (eneg : Bool) (ep : List Char) : ℚ :=
  let mant : ℚ := (digitsToNat (ip ++ fp) : ℚ) / ((10 : ℚ) ^ fp.length)
  let ex : ℚ := (10 : ℚ) ^ digitsToNat ep
  let v : ℚ := if eneg then mant / ex else mant * ex
  if neg then -v else v

/-- Leading sign of a numeric literal. -/
def parseSignChars : List Char → Bool × List Char
  | '-' :: t => (true, t)
  | '+' :: t => (false, t)
  | t => (false, t)

/-- Model of Python's `float(str)` on the finite decimal grammar:
optional surrounding whitespace, optional sign, digits with an optional
fractional part and an optional decimal exponent.  The special forms
`inf`, `infinity` and `nan` (and digit-group underscores), which Python
also accepts, are outside the model — no value in this development is of
that shape, and the module's own default is the finite `BACKOFF_SECONDS`.
Returns `none` exactly when Python raises `ValueError`. -/
def parseFloatChars (s0 : List Char) : Option ℚ :=
  let s1 := s0.dropWhile isPySpace
  let s2 := (s1.reverse.dropWhile isPySpace).reverse
  let sg := parseSignChars s2
  let ipSplit := sg.2.span Char.isDigit
  let fpSplit :=
    match ipSplit.2 with
    | '.' :: t => t.span Char.isDigit
    | _ => (([] : List Char), ipSplit.2)
  if ipSplit.1.isEmpty && fpSplit.1.isEmpty then none
  else
    match fpSplit.2 with
    | [] => some (floatValue sg.1 ipSplit.1 fpSplit.1 false [])
    | c :: t =>
      if c = 'e' || c = 'E' then
        let sg2 := parseSignChars t
        let epSplit := sg2.2.span Char.isDigit
        if epSplit.1.isEmpty || !epSplit.2.isEmpty then none
        else some (floatValue sg.1 ipSplit.1 fpSplit.1 sg2.1 epSplit.1)
      else none

/-- Python `float` applied to a string. -/
def pyFloat (s : String) : Option ℚ :=
  parseFloatChars s.toList

/-- The 429 branch's `float(response.headers.get("Retry-After", BACKOFF_SECONDS))`:
with the header absent, `float` is applied to the float `BACKOFF_SECONDS` and
returns it; with the header present, `float` parses the string or raises
`ValueError`. -/
def retryAfterSecs (h : Option String) : Except PyError ℚ :=
  match h with
  | none => .ok BACKOFF_SECONDS
  | some s =>
    match pyFloat s with
    | some q => .ok q
    | none => .error (.valueError ("could not convert string to float: " ++ s))

/-- Observable outcome of one logical request (`_request` call): the returned
JSON body or the raised exception, the trace of `time.sleep` durations
performed, and the number of transport attempts made. -/
structure ReqResult (α : Type) where
  result : Except PyError (Body α)
  sleeps : List ℚ
  attempts : Nat
deriving DecidableEq

/-- The retry loop of `_request`, lines 64-106.  `fuel` is the number of
loop iterations the guard `attempt < MAX_RETRIES` still allows (the loop
starts with `attempt = 0` and `fuel = MAX_RETRIES`, and every branch that
continues increments `attempt` exactly once, so `fuel + attempt = MAX_RETRIES`
throughout); `oracle attempt` is the outcome of the transport call made in
the iteration whose counter value is `attempt`.  Branches, in source order:
network failure; status 429; status 500-599; status 200-299; any other
status. -/
def requestLoop (oracle : Nat → AttemptResult α) : Nat → Nat → ReqResult α
  | 0, _ => ⟨.error (.airtableError exhaustedMsg), [], 0⟩
  | fuel + 1, attempt =>
    match oracle attempt with
    | .networkFailure =>
      let r := requestLoop oracle fuel (attempt + 1)
      ⟨r.result, BACKOFF_SECONDS * ((attempt + 1 : ℕ) : ℚ) :: r.sleeps, r.attempts + 1⟩
    | .response resp =>
      if resp.status = 429 then
        match retryAfterSecs resp.retryAfter with
        | .error e => ⟨.error e, [], 1⟩
        | .ok d =>
          let r := requestLoop oracle fuel (attempt + 1)
          ⟨r.result, d :: r.sleeps, r.attempts + 1⟩
      else if 500 ≤ resp.status ∧ resp.status < 600 then
        let r := requestLoop oracle fuel (attempt + 1)
        ⟨r.result, BACKOFF_SECONDS * ((attempt + 1 : ℕ) : ℚ) :: r.sleeps, r.attempts + 1⟩
      else if 200 ≤ resp.status ∧ resp.status < 300 then
        ⟨.ok resp.body, [], 1⟩
      else
        ⟨.error (.airtableError (statusErrMsg resp.status resp.text)), [], 1⟩

/-- `_request`: check credentials (`_headers`, raising before any transport
attempt when they are missing), then run the retry loop from `attempt = 0`
with the full budget. -/
def pyRequest (cfg : Config) (oracle : Nat → AttemptResult α) : ReqResult α :=
  if headersCheckFails cfg then
    ⟨.error (.airtableAuthenticationError authMsg), [], 0⟩
  else
    requestLoop oracle MAX_RETRIES 0

/-- The logical request issued for one page of `get_records`: `server p` is
the transport oracle of page `p`'s own `_request` call, so every page gets a
fresh attempt counter by construction. -/
def pageFetch (cfg : Config) (server : Nat → Nat → AttemptResult α) (p : Nat) : ReqResult α :=
  pyRequest cfg (server p)

/-- Python truthiness of the `offset` cursor: the loop breaks when
`response.get("offset")` is `None` or `""`. -/
def offsetTruthy (o : Option String) : Bool :=
  truthyStr o

/-- The `while True` pagination loop of `get_records`, lines 128-136:
`fetch page` is the result of the logical request for the given page index,
`acc` the records accumulated so far.  `fuel` bounds the number of iterations
the model unfolds: `none` means the loop is still running after `fuel`
fetches (the source loop has no bound of its own).  On normal or exceptional
exit, also reports how many page fetches were issued. -/
def getRecordsAux (fetch : Nat → ReqResult α) :
    Nat → Nat → List α → Option (Except PyError (List α) × Nat)
  | 0, _, _ => none
  | fuel + 1, page, acc =>
    match (fetch page).result with
    | .error e => some (.error e, page + 1)
    | .ok body =>
      let acc2 := acc ++ body.records.getD []
      if offsetTruthy body.offset then getRecordsAux fetch fuel (page + 1) acc2
      else some (.ok acc2, page + 1)

/-- `get_records`: run the pagination loop from page 0 with an empty
accumulator. -/
def get_records (fetch : Nat → ReqResult α) (fuel : Nat) :
    Option (Except PyError (List α) × Nat) :=
  getRecordsAux fetch fuel 0 []

/-- `_dispatch_batch`, lines 172-175: one logical PATCH request for a chunk,
returning `response.get("records", [])` on success and propagating the
exception otherwise. -/
def dispatchBatchResult (r : ReqResult β) : Except PyError (List β) :=
  match r.result with
  | .error e => .error e
  | .ok body => .ok (body.records.getD [])

/-- The chunking-and-dispatch loop of `batch_update`, lines 159-169:
walk the updates, growing `chunk`; dispatch when it reaches 10 entries and
once more at the end if nonempty.  `dispatch k` is the logical-request result
of the `k`-th dispatched chunk; `results` accumulates the per-chunk records;
`sent` instruments the trace of chunk payloads dispatched so far (the source
sends each `chunk` as the request body). -/
def batchUpdateGo (dispatch : Nat → ReqResult β) :
    List α → Nat → List β → List α → List (List α) →
    Except PyError (List β) × List (List α)
  | [], k, results, chunk, sent =>
    if chunk.isEmpty then (.ok results, sent)
    else
      match dispatchBatchResult (dispatch k) with
      | .error e => (.error e, sent ++ [chunk])
      | .ok recs => (.ok (results ++ recs), sent ++ [chunk])
  | u :: us, k, results, chunk, sent =>
    let c2 := chunk ++ [u]
    if c2.length = 10 then
      match dispatchBatchResult (dispatch k) with
      | .error e => (.error e, sent ++ [c2])
      | .ok recs => batchUpdateGo dispatch us (k + 1) (results ++ recs) [] (sent ++ [c2])
    else batchUpdateGo dispatch us k results c2 sent

/-- `batch_update`: run the chunking loop from an empty chunk.  The first
component is the value returned to the caller (or the exception raised);
the second is the trace of dispatched chunk payloads. -/
def batch_update (dispatch : Nat → ReqResult β) (updates : List α) :
    Except PyError (List β) × List (List α) :=
  batchUpdateGo dispatch updates 0 [] [] []

/-- The chunks `batch_update` would dispatch, computed alone: grow `chunk`,
emit at 10 entries, emit the remainder if nonempty. -/
def chunksAux : List α → List α → List (List α)
  | [], chunk => if chunk.isEmpty then [] else [chunk]
  | u :: us, chunk =>
    let c2 := chunk ++ [u]
    if c2.length = 10 then c2 :: chunksAux us [] else chunksAux us c2

/-- The chunk decomposition of an update list, per the source's loop. -/
def chunks10 (updates : List α) : List (List α) :=
  chunksAux updates []

/-- Transport outcomes classified as retryable failures by lines 74-97:
a network failure or a 5xx status. -/
def isTransient : AttemptResult α → Bool
  | .networkFailure => true
  | .response r => decide (500 ≤ r.status) && decide (r.status < 600)

/-- Does an `Except` hold a value? -/
def exceptIsOk : Except ε α → Bool
  | .ok _ => true
  | .error _ => false

/-- Transport outcomes that make the loop increment `attempt` and continue:
network failures, 5xx statuses, and 429s whose `Retry-After` computation
succeeds. -/
def consumesAttempt : AttemptResult α → Bool
  | .networkFailure => true
  | .response r =>
    if r.status = 429 then exceptIsOk (retryAfterSecs r.retryAfter)
    else decide (500 ≤ r.status) && decide (r.status < 600)

/-- A 429 response whose `Retry-After` computation succeeds. -/
def good429 : AttemptResult α → Bool
  | .networkFailure => false
  | .response r => decide (r.status = 429) && exceptIsOk (retryAfterSecs r.retryAfter)

/-- A configuration with both credentials present. -/
def cfgOK : Config := ⟨some "key", some "base"⟩

/-- A configuration with the API key unset. -/
def cfgMissing : Config := ⟨none, some "base"⟩

/-- The HTTP-date form that `Retry-After` also permits but `float` rejects. -/
def dateHeader : String := "Wed, 21 Oct 2015 07:28:00 GMT"

/-- A transport that always fails at the network level. -/
def oracleNet : Nat → AttemptResult Nat := fun _ => .networkFailure

def resp503 : Response Nat := ⟨503, none, ⟨none, none⟩, "server error"⟩

def resp200 : Response Nat := ⟨200, none, ⟨some [5, 6], none⟩, ""⟩

/-- Two 503 responses followed by a 200. -/
def oracle503twice : Nat → AttemptResult Nat := fun i =>
  if i < 2 then .response resp503 else .response resp200

def resp429h3 : Response Nat := ⟨429, some "3", ⟨none, none⟩, ""⟩

/-- A transport that is persistently throttled, with `Retry-After: 3`. -/
def oracle429 : Nat → AttemptResult Nat := fun _ => .response resp429h3

def resp401 : Response Nat := ⟨401, none, ⟨none, none⟩, "unauthorized"⟩

/-- A transport whose every response rejects the credentials. -/
def oracle401 : Nat → AttemptResult Nat := fun _ => .response resp401

/-- A transport that is throttled with an unparseable `Retry-After` header. -/
def oracleBadRA : Nat → AttemptResult Nat :=
  fun _ => .response ⟨429, some dateHeader, ⟨none, none⟩, ""⟩

/-- Two successful pages: the first carries a cursor and duplicated records,
the last carries none. -/
def fetchTwoPages : Nat → ReqResult Nat := fun p =>
  if p = 0 then ⟨.ok ⟨some [5, 5], some "cur"⟩, [], 1⟩
  else ⟨.ok ⟨some [5, 9], none⟩, [], 1⟩

/-- The page bodies of `fetchTwoPages`. -/
def twoPageBodies : Nat → Body Nat := fun p =>
  if p = 0 then ⟨some [5, 5], some "cur"⟩ else ⟨some [5, 9], none⟩

/-- A successful cursored page followed by a permanently failing fetch. -/
def fetchFailPage : Nat → ReqResult Nat := fun p =>
  if p = 0 then ⟨.ok ⟨some [1, 2], some "cur"⟩, [], 1⟩
  else ⟨.error (.airtableError exhaustedMsg), [], 5⟩

/-- A logical request that always succeeds and returns no `records` key. -/
def fetchNoRecords : Nat → ReqResult Nat := fun _ => ⟨.ok ⟨none, none⟩, [], 1⟩

/-- The page bodies of `fetchFailPage`'s successful prefix. -/
def failPageBodies : Nat → Body Nat := fun p =>
  if p = 0 then ⟨some [1, 2], some "cur"⟩ else ⟨none, none⟩

/-- 23 update dicts, identified by their position. -/
def updates23 : List Nat := List.range 23

/-- A 200 batch response confirming ten records. -/
def goodBatchResp : Response Nat :=
  ⟨200, none, ⟨some ((List.range 10).map (fun i => 100 + i)), none⟩, ""⟩

/-- Chunk 0 is applied (its `_request` succeeds); every later chunk fails
permanently (every transport attempt is a network failure). -/
def dispatchA : Nat → ReqResult Nat := fun k =>
  if k = 0 then pyRequest cfgOK (fun _ => .response goodBatchResp)
  else pyRequest cfgOK (fun _ => .networkFailure)

/-- Every chunk fails permanently from the start. -/
def dispatchB : Nat → ReqResult Nat := fun _ =>
  pyRequest cfgOK (fun _ => .networkFailure)

/-- A chunk dispatch that always succeeds with one confirmed record. -/
def dispatchOne : Nat → ReqResult Nat := fun _ => ⟨.ok ⟨some [7], none⟩, [], 1⟩

lemma requestLoop_zero (oracle : Nat → AttemptResult α) (a : Nat) :
    requestLoop oracle 0 a = ⟨.error (.airtableError exhaustedMsg), [], 0⟩ :=
  rfl

lemma requestLoop_networkStep (oracle : Nat → AttemptResult α) (fuel a : Nat)
    (h : oracle a = .networkFailure) :
    requestLoop oracle (fuel + 1) a =
      ⟨(requestLoop oracle fuel (a + 1)).result,
       BACKOFF_SECONDS * ((a + 1 : ℕ) : ℚ) :: (requestLoop oracle fuel (a + 1)).sleeps,
       (requestLoop oracle fuel (a + 1)).attempts + 1⟩ := by
  simp only [requestLoop, h]

lemma requestLoop_rateLimitStep (oracle : Nat → AttemptResult α) (fuel a : Nat)
    (resp : Response α) (d : ℚ)
    (h : oracle a = .response resp) (h429 : resp.status = 429)
    (hra : retryAfterSecs resp.retryAfter = .ok d) :
    requestLoop oracle (fuel + 1) a =
      ⟨(requestLoop oracle fuel (a + 1)).result,
       d :: (requestLoop oracle fuel (a + 1)).sleeps,
       (requestLoop oracle fuel (a + 1)).attempts + 1⟩ := by
  simp only [requestLoop, h, h429, if_pos, hra]

lemma requestLoop_rateLimitBadHeader (oracle : Nat → AttemptResult α) (fuel a : Nat)
    (resp : Response α) (e : PyError)
    (h : oracle a = .response resp) (h429 : resp.status = 429)
    (hra : retryAfterSecs resp.retryAfter = .error e) :
    requestLoop oracle (fuel + 1) a = ⟨.error e, [], 1⟩ := by
  simp only [requestLoop, h, h429, if_pos, hra]

lemma requestLoop_serverErrorStep (oracle : Nat → AttemptResult α) (fuel a : Nat)
    (resp : Response α)
    (h : oracle a = .response resp) (h5 : 500 ≤ resp.status) (h6 : resp.status < 600) :
    requestLoop oracle (fuel + 1) a =
      ⟨(requestLoop oracle fuel (a + 1)).result,
       BACKOFF_SECONDS * ((a + 1 : ℕ) : ℚ) :: (requestLoop oracle fuel (a + 1)).sleeps,
       (requestLoop oracle fuel (a + 1)).attempts + 1⟩ := by
  have h429 : ¬ resp.status = 429 := by omega
  simp only [requestLoop, h, h429, if_false, if_pos (And.intro h5 h6)]

lemma requestLoop_successStep (oracle : Nat → AttemptResult α) (fuel a : Nat)
    (resp : Response α)
    (h : oracle a = .response resp) (h2 : 200 ≤ resp.status) (h3 : resp.status < 300) :
    requestLoop oracle (fuel + 1) a = ⟨.ok resp.body, [], 1⟩ := by
  have h429 : ¬ resp.status = 429 := by omega
  have h5 : ¬ (500 ≤ resp.status ∧ resp.status < 600) := by omega
  simp only [requestLoop, h, h429, h5, if_false, if_pos (And.intro h2 h3)]

lemma requestLoop_clientErrorStep (oracle : Nat → AttemptResult α) (fuel a : Nat)
    (resp : Response α)
    (h : oracle a = .response resp) (h429 : resp.status ≠ 429)
    (h5 : ¬ (500 ≤ resp.status ∧ resp.status < 600))
    (h2 : ¬ (200 ≤ resp.status ∧ resp.status < 300)) :
    requestLoop oracle (fuel + 1) a =
      ⟨.error (.airtableError (statusErrMsg resp.status resp.text)), [], 1⟩ := by
  simp only [requestLoop, h, h429, h5, h2, if_false]

/-- Any transport outcome that consumes an attempt makes the loop recurse with
the counter incremented; a run of nothing but such outcomes therefore exhausts
the whole remaining budget and raises the exhausted-retries error. -/
lemma requestLoop_allConsume (oracle : Nat → AttemptResult α)
    (h : ∀ i, consumesAttempt (oracle i) = true) :
    ∀ fuel a, (requestLoop oracle fuel a).result = .error (.airtableError exhaustedMsg) ∧
      (requestLoop oracle fuel a).attempts = fuel := by
  intro fuel
  induction fuel with
  | zero => intro a; exact ⟨rfl, rfl⟩
  | succ f ih =>
    intro a
    cases hoa : oracle a with
    | networkFailure =>
      rw [requestLoop_networkStep oracle f a hoa]
      exact ⟨(ih (a + 1)).1, by simp [(ih (a + 1)).2]⟩
    | response resp =>
      have hc := h a
      rw [hoa] at hc
      simp only [consumesAttempt] at hc
      by_cases h429 : resp.status = 429
      · rw [if_pos h429] at hc
        cases hra : retryAfterSecs resp.retryAfter with
        | error e => rw [hra] at hc; simp [exceptIsOk] at hc
        | ok d =>
          rw [requestLoop_rateLimitStep oracle f a resp d hoa h429 hra]
          exact ⟨(ih (a + 1)).1, by simp [(ih (a + 1)).2]⟩
      · rw [if_neg h429] at hc
        simp only [Bool.and_eq_true, decide_eq_true_eq] at hc
        rw [requestLoop_serverErrorStep oracle f a resp hoa hc.1 hc.2]
        exact ⟨(ih (a + 1)).1, by simp [(ih (a + 1)).2]⟩

lemma isTransient_consumes (o : AttemptResult α)
    (h : isTransient o = true) : consumesAttempt o = true := by
  cases o with
  | networkFailure => rfl
  | response r =>
    simp only [isTransient, Bool.and_eq_true, decide_eq_true_eq] at h
    have h429 : ¬ r.status = 429 := by omega
    simp only [consumesAttempt, if_neg h429, Bool.and_eq_true, decide_eq_true_eq]
    exact h

lemma good429_consumes (o : AttemptResult α)
    (h : good429 o = true) : consumesAttempt o = true := by
  cases o with
  | networkFailure => simp [good429] at h
  | response r =>
    simp only [good429, Bool.and_eq_true, decide_eq_true_eq] at h
    simp only [consumesAttempt, if_pos h.1]
    exact h.2

lemma getRecordsAux_errStep (fetch : Nat → ReqResult α) (fuel page : Nat)
    (acc : List α) (e : PyError) (h : (fetch page).result = .error e) :
    getRecordsAux fetch (fuel + 1) page acc = some (.error e, page + 1) := by
  simp only [getRecordsAux, h]

lemma getRecordsAux_contStep (fetch : Nat → ReqResult α) (fuel page : Nat)
    (acc : List α) (b : Body α) (h : (fetch page).result = .ok b)
    (ht : offsetTruthy b.offset = true) :
    getRecordsAux fetch (fuel + 1) page acc =
      getRecordsAux fetch fuel (page + 1) (acc ++ b.records.getD []) := by
  simp only [getRecordsAux, h, ht, if_true]

lemma getRecordsAux_lastStep (fetch : Nat → ReqResult α) (fuel page : Nat)
    (acc : List α) (b : Body α) (h : (fetch page).result = .ok b)
    (ht : offsetTruthy b.offset = false) :
    getRecordsAux fetch (fuel + 1) page acc =
      some (.ok (acc ++ b.records.getD []), page + 1) := by
  simp only [getRecordsAux, h, ht, Bool.false_eq_true, if_false]

/-- Running the pagination loop across `m` successful pages that all carry a
cursor advances the page index by `m` and appends those pages' record lists,
in page order, to the accumulator. -/
lemma getRecordsAux_advance (fetch : Nat → ReqResult α) (B : Nat → Body α) :
    ∀ (m fuel page : Nat) (acc : List α),
      (∀ i, i < m → (fetch (page + i)).result = .ok (B (page + i))) →
      (∀ i, i < m → offsetTruthy (B (page + i)).offset = true) →
      getRecordsAux fetch (m + fuel) page acc =
        getRecordsAux fetch fuel (page + m)
          (acc ++ ((List.range m).map (fun i => (B (page + i)).records.getD [])).flatten) := by
  intro m
  induction m with
  | zero => intro fuel page acc _ _; simp
  | succ m ih =>
    intro fuel page acc hok ht
    have e1 : m + 1 + fuel = (m + fuel) + 1 := by omega
    rw [e1]
    have h0 : (fetch page).result = .ok (B page) := by
      have := hok 0 (by omega); simpa using this
    have t0 : offsetTruthy (B page).offset = true := by
      have := ht 0 (by omega); simpa using this
    rw [getRecordsAux_contStep fetch (m + fuel) page acc (B page) h0 t0]
    have hok' : ∀ i, i < m → (fetch (page + 1 + i)).result = .ok (B (page + 1 + i)) := by
      intro i hi
      have := hok (i + 1) (by omega)
      have e2 : page + (i + 1) = page + 1 + i := by omega
      rwa [e2] at this
    have ht' : ∀ i, i < m → offsetTruthy (B (page + 1 + i)).offset = true := by
      intro i hi
      have := ht (i + 1) (by omega)
      have e2 : page + (i + 1) = page + 1 + i := by omega
      rwa [e2] at this
    rw [ih fuel (page + 1) (acc ++ (B page).records.getD []) hok' ht']
    have e3 : page + 1 + m = page + (m + 1) := by omega
    have e4 : ∀ i : ℕ, page + 1 + i = page + (i + 1) := fun i => by omega
    rw [e3]
    congr 1
    rw [List.range_succ_eq_map]
    simp only [List.map_cons, List.map_map, List.flatten_cons, List.append_assoc, e4,
      Function.comp_def, Nat.succ_eq_add_one, Nat.add_zero]

/-- If every page carries a cursor, the pagination loop never exits, whatever
bound the model unfolds it to. -/
lemma getRecordsAux_noExit (fetch : Nat → ReqResult α)
    (h : ∀ p, ∃ b, (fetch p).result = .ok b ∧ offsetTruthy b.offset = true) :
    ∀ fuel page acc, getRecordsAux fetch fuel page acc = none := by
  intro fuel
  induction fuel with
  | zero => intro page acc; rfl
  | succ f ih =>
    intro page acc
    obtain ⟨b, hb, ht⟩ := h page
    rw [getRecordsAux_contStep fetch f page acc b hb ht]
    exact ih (page + 1) (acc ++ b.records.getD [])

/-- The chunks dispatched are consecutive slices: flattening them restores
the pending chunk followed by the remaining updates. -/
lemma chunksAux_flatten : ∀ (us chunk : List α), (chunksAux us chunk).flatten = chunk ++ us := by
  intro us
  induction us with
  | nil =>
    intro chunk
    by_cases h : chunk.isEmpty
    · simp only [chunksAux, if_pos h, List.flatten_nil]
      rw [List.isEmpty_iff.mp h]
      rfl
    · simp only [chunksAux, if_neg h]
      simp
  | cons u us ih =>
    intro chunk
    by_cases h : (chunk ++ [u]).length = 10
    · simp only [chunksAux, if_pos h, List.flatten_cons, ih []]
      simp
    · simp only [chunksAux, if_neg h, ih (chunk ++ [u])]
      simp

/-- Number of chunks: the ceiling of (pending + remaining) / 10. -/
lemma chunksAux_length : ∀ (us chunk : List α), chunk.length < 10 →
    (chunksAux us chunk).length = (chunk.length + us.length + 9) / 10 := by
  intro us
  induction us with
  | nil =>
    intro chunk hc
    by_cases h : chunk.isEmpty
    · rw [List.isEmpty_iff.mp h]
      simp [chunksAux]
    · have h1 : chunk.length ≠ 0 := by
        intro h0; exact h (List.isEmpty_iff.mpr (List.length_eq_zero.mp h0))
      simp only [chunksAux, if_neg h, List.length_cons, List.length_nil]
      omega
  | cons u us ih =>
    intro chunk hc
    by_cases h : (chunk ++ [u]).length = 10
    · have h10 : chunk.length = 9 := by
        simpa using h
      simp only [chunksAux, if_pos h, List.length_cons]
      rw [ih [] (by simp)]
      simp only [List.length_nil, List.length_cons]
      omega
    · have hlt : (chunk ++ [u]).length < 10 := by
        simp only [List.length_append, List.length_cons, List.length_nil] at h ⊢
        omega
      simp only [chunksAux, if_neg h]
      rw [ih (chunk ++ [u]) hlt]
      simp only [List.length_append, List.length_cons, List.length_nil]
      omega

/-- Every dispatched chunk has at most 10 entries. -/
lemma chunksAux_mem_le : ∀ (us chunk : List α), chunk.length < 10 →
    ∀ c ∈ chunksAux us chunk, c.length ≤ 10 := by
  intro us
  induction us with
  | nil =>
    intro chunk hc c hmem
    by_cases h : chunk.isEmpty
    · simp [chunksAux, if_pos h] at hmem
    · simp only [chunksAux, if_neg h, List.mem_singleton] at hmem
      subst hmem
      omega
  | cons u us ih =>
    intro chunk hc c hmem
    by_cases h : (chunk ++ [u]).length = 10
    · simp only [chunksAux, if_pos h, List.mem_cons] at hmem
      rcases hmem with h1 | h1
      · subst h1
        omega
      · exact ih [] (by simp) c h1
    · have hlt : (chunk ++ [u]).length < 10 := by
        simp only [List.length_append, List.length_cons, List.length_nil] at h ⊢
        omega
      simp only [chunksAux, if_neg h] at hmem
      exact ih (chunk ++ [u]) hlt c hmem

/-- When every chunk dispatch succeeds, the loop returns the per-chunk record
lists concatenated in chunk order, and dispatches exactly the chunk
decomposition of the remaining input. -/
lemma batchUpdateGo_allOk (dispatch : Nat → ReqResult β) (R : Nat → List β)
    (hd : ∀ j, dispatchBatchResult (dispatch j) = .ok (R j)) :
    ∀ (us : List α) (k : Nat) (results : List β) (chunk : List α) (sent : List (List α)),
      batchUpdateGo dispatch us k results chunk sent =
        (.ok (results ++
          ((List.range (chunksAux us chunk).length).map (fun i => R (k + i))).flatten),
         sent ++ chunksAux us chunk) := by
  intro us
  induction us with
  | nil =>
    intro k results chunk sent
    by_cases h : chunk.isEmpty
    · simp [batchUpdateGo, chunksAux, if_pos h]
    · simp only [batchUpdateGo, chunksAux, if_neg h, hd k]
      have e1 : (List.range 1).map (fun i => R (k + i)) = [R k] := by
        simp [List.range_succ]
      simp [e1]
  | cons u us ih =>
    intro k results chunk sent
    by_cases h : (chunk ++ [u]).length = 10
    · simp only [batchUpdateGo, chunksAux, if_pos h, hd k]
      rw [ih (k + 1) (results ++ R k) [] (sent ++ [chunk ++ [u]])]
      have e4 : ∀ i : ℕ, k + 1 + i = k + (i + 1) := fun i => by omega
      simp only [List.length_cons, List.range_succ_eq_map, List.map_cons, List.map_map,
        List.flatten_cons, List.append_assoc, e4, Function.comp_def, Nat.succ_eq_add_one,
        Nat.add_zero, List.singleton_append]
    · simp only [batchUpdateGo, chunksAux, if_neg h]
      exact ih k results (chunk ++ [u]) sent

/-- When the dispatches of chunks `0 .. K-1` succeed and the dispatch of chunk
`K` raises, the loop propagates exactly that exception, discarding the results
already accumulated, after dispatching exactly chunks `0 .. K`. -/
lemma batchUpdateGo_failAt (dispatch : Nat → ReqResult β) (R : Nat → List β)
    (e : PyError) (K : Nat)
    (hd : ∀ j, j < K → dispatchBatchResult (dispatch j) = .ok (R j))
    (he : dispatchBatchResult (dispatch K) = .error e) :
    ∀ (us : List α) (k : Nat) (results : List β) (chunk : List α) (sent : List (List α)),
      k ≤ K → K - k < (chunksAux us chunk).length →
      batchUpdateGo dispatch us k results chunk sent =
        (.error e, sent ++ (chunksAux us chunk).take (K - k + 1)) := by
  intro us
  induction us with
  | nil =>
    intro k results chunk sent hk hlen
    by_cases h : chunk.isEmpty
    · simp [chunksAux, if_pos h] at hlen
    · simp only [chunksAux, if_neg h, List.length_singleton] at hlen
      have hkK : k = K := by omega
      subst hkK
      simp only [batchUpdateGo, chunksAux, if_neg h, he]
      have e1 : k - k + 1 = 1 := by omega
      simp [e1]
  | cons u us ih =>
    intro k results chunk sent hk hlen
    by_cases h : (chunk ++ [u]).length = 10
    · by_cases hkK : k = K
      · subst hkK
        simp only [batchUpdateGo, chunksAux, if_pos h, he]
        have e1 : k - k + 1 = 1 := by omega
        simp [e1]
      · have hklt : k < K := by omega
        simp only [batchUpdateGo, chunksAux, if_pos h, hd k hklt]
        simp only [chunksAux, if_pos h, List.length_cons] at hlen
        rw [ih (k + 1) (results ++ R k) [] (sent ++ [chunk ++ [u]]) (by omega) (by omega)]
        have e5 : K - k + 1 = (K - (k + 1) + 1) + 1 := by omega
        simp only [chunksAux, if_pos h, e5, List.take_succ_cons, List.append_assoc,
          List.singleton_append]
    · simp only [batchUpdateGo, chunksAux, if_neg h]
      simp only [chunksAux, if_neg h] at hlen
      exact ih k results (chunk ++ [u]) sent hk hlen

/-- C2: for every logical request (a page fetch or a chunk dispatch) whose
every transport attempt yields a 5xx status or a network failure, the client
performs exactly `MAX_RETRIES` (5) transport attempts and then fails with the
exhausted-retries error; and the attempt counter of one logical request is
fresh — a page fetch's attempt count is fixed by that page's own transport
outcomes alone (the hypothesis constrains `server` only at page `p`), never
inherited from another page or chunk. -/
theorem c2_exhausts_exactly_max_attempts (α : Type)
    (cfg : Config) (oracle : Nat → AttemptResult α)
    (server : Nat → Nat → AttemptResult α) (p : Nat)
    (hcfg : headersCheckFails cfg = false)
    (h1 : ∀ i, isTransient (oracle i) = true)
    (h2 : ∀ i, isTransient (server p i) = true) :
    (pyRequest cfg oracle).result = .error (.airtableError exhaustedMsg) ∧
    (pyRequest cfg oracle).attempts = MAX_RETRIES ∧
    (pageFetch cfg server p).result = .error (.airtableError exhaustedMsg) ∧
    (pageFetch cfg server p).attempts = MAX_RETRIES := by
  have hc1 : ∀ i, consumesAttempt (oracle i) = true :=
    fun i => isTransient_consumes (oracle i) (h1 i)
  have hc2 : ∀ i, consumesAttempt (server p i) = true :=
    fun i => isTransient_consumes (server p i) (h2 i)
  have r1 := requestLoop_allConsume oracle hc1 MAX_RETRIES 0
  have r2 := requestLoop_allConsume (server p) hc2 MAX_RETRIES 0
  simp only [pyRequest, pageFetch, hcfg, Bool.false_eq_true, if_false]
  exact ⟨r1.1, r1.2, r2.1, r2.2⟩

theorem c2_witness :
    (pyRequest cfgOK oracleNet).result = .error (.airtableError exhaustedMsg) ∧
    (pyRequest cfgOK oracleNet).attempts = MAX_RETRIES ∧
    (pageFetch cfgOK (fun _ => oracleNet) 0).result = .error (.airtableError exhaustedMsg) ∧
    (pageFetch cfgOK (fun _ => oracleNet) 0).attempts = MAX_RETRIES :=
  c2_exhausts_exactly_max_attempts Nat cfgOK oracleNet (fun _ => oracleNet) 0
    rfl (fun _ => rfl) (fun _ => rfl)

/-- C7: on a network failure or 5xx the loop increments the attempt counter;
with budget left it sleeps `BACKOFF_SECONDS * attempt` seconds (the freshly
incremented counter — linear, not exponential backoff) and retries, and when
the counter reaches the maximum the loop guard fails and the exhausted-retries
error is raised; in the 503/503/200 scenario the call succeeds with the third
response's body after sleeping 2 then 4 seconds. -/
theorem c7_linear_backoff_and_retry (α : Type) :
    (∀ (oracle : Nat → AttemptResult α) (fuel a : Nat),
       oracle a = .networkFailure →
       requestLoop oracle (fuel + 1) a =
         ⟨(requestLoop oracle fuel (a + 1)).result,
          BACKOFF_SECONDS * ((a + 1 : ℕ) : ℚ) :: (requestLoop oracle fuel (a + 1)).sleeps,
          (requestLoop oracle fuel (a + 1)).attempts + 1⟩) ∧
    (∀ (oracle : Nat → AttemptResult α) (fuel a : Nat) (resp : Response α),
       oracle a = .response resp → 500 ≤ resp.status → resp.status < 600 →
       requestLoop oracle (fuel + 1) a =
         ⟨(requestLoop oracle fuel (a + 1)).result,
          BACKOFF_SECONDS * ((a + 1 : ℕ) : ℚ) :: (requestLoop oracle fuel (a + 1)).sleeps,
          (requestLoop oracle fuel (a + 1)).attempts + 1⟩) ∧
    (∀ (oracle : Nat → AttemptResult α) (a : Nat),
       requestLoop oracle 0 a = ⟨.error (.airtableError exhaustedMsg), [], 0⟩) ∧
    (∀ (cfg : Config) (oracle : Nat → AttemptResult α) (r0 r1 r2 : Response α),
       headersCheckFails cfg = false →
       oracle 0 = .response r0 → r0.status = 503 →
       oracle 1 = .response r1 → r1.status = 503 →
       oracle 2 = .response r2 → r2.status = 200 →
       pyRequest cfg oracle = ⟨.ok r2.body, [2, 4], 3⟩) := by
  refine ⟨fun oracle fuel a h => requestLoop_networkStep oracle fuel a h,
    fun oracle fuel a resp h h5 h6 => requestLoop_serverErrorStep oracle fuel a resp h h5 h6,
    fun oracle a => requestLoop_zero oracle a, ?_⟩
  intro cfg oracle r0 r1 r2 hcfg h0 hs0 h1 hs1 h2 hs2
  have s2 : requestLoop oracle 3 2 = ⟨.ok r2.body, [], 1⟩ := by
    simpa using requestLoop_successStep oracle 2 2 r2 h2 (by omega) (by omega)
  have s1 : requestLoop oracle 4 1 = ⟨.ok r2.body, [BACKOFF_SECONDS * 2], 2⟩ := by
    simpa [s2] using requestLoop_serverErrorStep oracle 3 1 r1 h1 (by omega) (by omega)
  have s0 : requestLoop oracle 5 0 =
      ⟨.ok r2.body, [BACKOFF_SECONDS * 1, BACKOFF_SECONDS * 2], 3⟩ := by
    simpa [s1] using requestLoop_serverErrorStep oracle 4 0 r0 h0 (by omega) (by omega)
  simp only [pyRequest, hcfg, Bool.false_eq_true, if_false, MAX_RETRIES, s0]
  norm_num [BACKOFF_SECONDS]

theorem c7_witness :
    pyRequest cfgOK oracle503twice = ⟨.ok resp200.body, [2, 4], 3⟩ :=
  (c7_linear_backoff_and_retry Nat).2.2.2 cfgOK oracle503twice resp503 resp503 resp200
    rfl rfl rfl rfl rfl rfl rfl

/-- C6: on a 429 the client sleeps exactly the duration parsed from the
`Retry-After` header (so a header saying `3` sleeps exactly 3 seconds, and
`pyFloat` parses `"3"` to `3`), falls back to `BACKOFF_SECONDS` when the
header is absent rather than crashing, and increments the same attempt
counter as network/5xx failures (the continuation is the same
`requestLoop oracle fuel (a + 1)`), so persistent throttling exhausts the
same `MAX_RETRIES` ceiling. -/
theorem c6_rate_limit_sleep_and_budget (α : Type) :
    pyFloat "3" = some 3 ∧
    (∀ (oracle : Nat → AttemptResult α) (fuel a : Nat) (resp : Response α)
       (s : String) (q : ℚ),
       oracle a = .response resp → resp.status = 429 →
       resp.retryAfter = some s → pyFloat s = some q →
       requestLoop oracle (fuel + 1) a =
         ⟨(requestLoop oracle fuel (a + 1)).result,
          q :: (requestLoop oracle fuel (a + 1)).sleeps,
          (requestLoop oracle fuel (a + 1)).attempts + 1⟩) ∧
    (∀ (oracle : Nat → AttemptResult α) (fuel a : Nat) (resp : Response α),
       oracle a = .response resp → resp.status = 429 → resp.retryAfter = none →
       requestLoop oracle (fuel + 1) a =
         ⟨(requestLoop oracle fuel (a + 1)).result,
          BACKOFF_SECONDS :: (requestLoop oracle fuel (a + 1)).sleeps,
          (requestLoop oracle fuel (a + 1)).attempts + 1⟩) ∧
    (∀ (cfg : Config) (oracle : Nat → AttemptResult α),
       headersCheckFails cfg = false → (∀ i, good429 (oracle i) = true) →
       (pyRequest cfg oracle).result = .error (.airtableError exhaustedMsg) ∧
       (pyRequest cfg oracle).attempts = MAX_RETRIES) := by
  refine ⟨?_, ?_, ?_, ?_⟩
  · have h : pyFloat "3" = some (floatValue false ['3'] [] false []) := rfl
    rw [h]
    have h3 : digitsToNat ['3'] = 3 := by decide
    have h0 : digitsToNat ([] : List Char) = 0 := by decide
    norm_num [floatValue, h3, h0]
  · intro oracle fuel a resp s q h h429 hra hq
    have hr : retryAfterSecs resp.retryAfter = .ok q := by
      rw [hra]
      simp [retryAfterSecs, hq]
    exact requestLoop_rateLimitStep oracle fuel a resp q h h429 hr
  · intro oracle fuel a resp h h429 hra
    have hr : retryAfterSecs resp.retryAfter = .ok BACKOFF_SECONDS := by
      rw [hra]
      rfl
    exact requestLoop_rateLimitStep oracle fuel a resp BACKOFF_SECONDS h h429 hr
  · intro cfg oracle hcfg h
    have hc : ∀ i, consumesAttempt (oracle i) = true :=
      fun i => good429_consumes (oracle i) (h i)
    have r := requestLoop_allConsume oracle hc MAX_RETRIES 0
    simp only [pyRequest, hcfg, Bool.false_eq_true, if_false]
    exact ⟨r.1, r.2⟩

theorem c6_witness :
    requestLoop oracle429 5 0 =
      ⟨(requestLoop oracle429 4 1).result, 3 :: (requestLoop oracle429 4 1).sleeps,
       (requestLoop oracle429 4 1).attempts + 1⟩ ∧
    (pyRequest cfgOK oracle429).result = .error (.airtableError exhaustedMsg) ∧
    (pyRequest cfgOK oracle429).attempts = MAX_RETRIES := by
  constructor
  · have h := (c6_rate_limit_sleep_and_budget Nat).2.1 oracle429 4 0 resp429h3 "3" 3
      rfl rfl rfl ((c6_rate_limit_sleep_and_budget Nat).1)
    simpa using h
  · exact (c6_rate_limit_sleep_and_budget Nat).2.2.2 cfgOK oracle429 rfl (fun i => rfl)

/-- C3 counterexample: with valid credentials, a server-side rejection
(HTTP 401) is surfaced as the generic `AirtableError`, not as the
authentication subtype the claim requires — `isAuthenticationError` is false
on the raised error.  (It is surfaced immediately and without retry, which is
the part of the claim that does hold.) -/
theorem c3_counterexample :
    pyRequest cfgOK oracle401 =
      ⟨.error (.airtableError (statusErrMsg 401 "unauthorized")), [], 1⟩ ∧
    PyError.isAuthenticationError (.airtableError (statusErrMsg 401 "unauthorized")) = false :=
  ⟨rfl, rfl⟩

/-- C3 amended: missing credentials are surfaced immediately, before any
transport attempt, as `AirtableAuthenticationError`; credentials rejected by
the server (any 4xx other than 429, e.g. 401 or 403) are surfaced immediately
after a single attempt with no retry, but as the generic `AirtableError`, not
the authentication subtype. -/
theorem c3_auth_handling_amended (α : Type) :
    (∀ (cfg : Config) (oracle : Nat → AttemptResult α),
       headersCheckFails cfg = true →
       pyRequest cfg oracle = ⟨.error (.airtableAuthenticationError authMsg), [], 0⟩) ∧
    (∀ (oracle : Nat → AttemptResult α) (fuel a : Nat) (resp : Response α),
       oracle a = .response resp → 400 ≤ resp.status → resp.status < 500 →
       resp.status ≠ 429 →
       requestLoop oracle (fuel + 1) a =
         ⟨.error (.airtableError (statusErrMsg resp.status resp.text)), [], 1⟩ ∧
       PyError.isAuthenticationError
         (.airtableError (statusErrMsg resp.status resp.text)) = false) := by
  constructor
  · intro cfg oracle hcfg
    simp [pyRequest, hcfg]
  · intro oracle fuel a resp h h4 h5 h429
    refine ⟨requestLoop_clientErrorStep oracle fuel a resp h h429 (by omega) (by omega), rfl⟩

theorem c3_amended_witness :
    pyRequest cfgMissing oracleNet =
      ⟨.error (.airtableAuthenticationError authMsg), [], 0⟩ ∧
    requestLoop oracle401 5 0 =
      ⟨.error (.airtableError (statusErrMsg 401 "unauthorized")), [], 1⟩ := by
  constructor
  · exact (c3_auth_handling_amended Nat).1 cfgMissing oracleNet rfl
  · have h := ((c3_auth_handling_amended Nat).2 oracle401 4 0 resp401 rfl
      (by decide) (by decide) (by decide)).1
    simpa using h

/-- C9: a 429 response whose `Retry-After` header holds the HTTP-date form
(which `float` cannot parse) makes `_request` raise a raw `ValueError` from
the `float(...)` conversion — an exception outside the `AirtableError`
taxonomy — after a single attempt, without sleeping and without engaging the
retry policy. -/
theorem c9_unparseable_retry_after_value_error :
    pyRequest cfgOK oracleBadRA =
      ⟨.error (.valueError ("could not convert string to float: " ++ dateHeader)), [], 1⟩ ∧
    PyError.isAirtableError
      (.valueError ("could not convert string to float: " ++ dateHeader)) = false ∧
    pyFloat dateHeader = none :=
  ⟨rfl, rfl, rfl⟩

lemma sum_map_const_range (n K : Nat) : ((List.range n).map (fun _ => K)).sum = n * K := by
  induction n with
  | zero => simp
  | succ n ih => rw [List.range_succ]; simp [ih, Nat.succ_mul]

/-- C4: paginating over `N ≥ 1` pages — each fetched successfully, all but
the last carrying a cursor, each holding `K` records — issues exactly `N`
page fetches and returns the `N` pages' record lists concatenated verbatim in
server order (`N * K` records, no deduplication), for any unfolding bound at
least `N` (no assumed maximum page count); and when every page carries a
cursor the loop never exits, for any bound. -/
theorem c4_pagination_exact (α : Type) :
    (∀ (fetch : Nat → ReqResult α) (B : Nat → Body α) (N K fuel : Nat),
       1 ≤ N → N ≤ fuel →
       (∀ i, i < N → (fetch i).result = .ok (B i)) →
       (∀ i, i < N - 1 → offsetTruthy (B i).offset = true) →
       offsetTruthy (B (N - 1)).offset = false →
       (∀ i, i < N → ((B i).records.getD []).length = K) →
       get_records fetch fuel =
         some (.ok (((List.range N).map (fun i => (B i).records.getD [])).flatten), N) ∧
       (((List.range N).map (fun i => (B i).records.getD [])).flatten).length = N * K) ∧
    (∀ (fetch : Nat → ReqResult α) (fuel : Nat),
       (∀ p, ∃ b, (fetch p).result = .ok b ∧ offsetTruthy b.offset = true) →
       get_records fetch fuel = none) := by
  constructor
  · intro fetch B N K fuel hN hfuel hok hcur hlast hK
    constructor
    · have hm : ∀ i, i < N - 1 → (fetch (0 + i)).result = .ok (B (0 + i)) := by
        intro i hi; simpa using hok i (by omega)
      have hm2 : ∀ i, i < N - 1 → offsetTruthy (B (0 + i)).offset = true := by
        intro i hi; simpa using hcur i hi
      have e1 : fuel = (N - 1) + ((fuel - N) + 1) := by omega
      rw [get_records, e1,
        getRecordsAux_advance fetch B (N - 1) ((fuel - N) + 1) 0 [] hm hm2]
      have e2 : 0 + (N - 1) = N - 1 := by omega
      rw [e2, getRecordsAux_lastStep fetch (fuel - N) (N - 1) _ (B (N - 1))
        (hok (N - 1) (by omega)) hlast]
      have e3 : N - 1 + 1 = N := by omega
      rw [e3]
      have e4 : ((List.range N).map (fun i => (B i).records.getD [])).flatten
          = ((List.range (N - 1)).map (fun i => (B i).records.getD [])).flatten
            ++ (B (N - 1)).records.getD [] := by
        conv_lhs => rw [show N = (N - 1) + 1 from by omega]
        rw [List.range_succ, List.map_append, List.flatten_append]
        simp
      rw [e4]
      simp
    · rw [List.length_flatten, List.map_map]
      have e5 : (List.range N).map (List.length ∘ fun i => (B i).records.getD [])
          = (List.range N).map (fun _ => K) := by
        apply List.map_congr_left
        intro i hi
        simp only [Function.comp_apply]
        exact hK i (List.mem_range.mp hi)
      rw [e5, sum_map_const_range]
  · intro fetch fuel h
    rw [get_records]
    exact getRecordsAux_noExit fetch h fuel 0 []

theorem c4_witness :
    get_records fetchTwoPages 5 =
      some (.ok (((List.range 2).map
        (fun i => (twoPageBodies i).records.getD [])).flatten), 2) ∧
    (((List.range 2).map (fun i => (twoPageBodies i).records.getD [])).flatten).length
      = 2 * 2 :=
  (c4_pagination_exact Nat).1 fetchTwoPages twoPageBodies 2 2 5 (by decide) (by decide)
    (by decide) (by decide) (by decide) (by decide)

/-- C8: when pages `0 .. p-1` succeed with cursors but the fetch of page `p`
raises (after its own retry budget, already spent inside that fetch's
logical request), `get_records` propagates exactly that exception: the caller
receives the error — which carries no record list — and never the records
accumulated from the earlier pages. -/
theorem c8_page_failure_aborts (α : Type) (fetch : Nat → ReqResult α)
    (B : Nat → Body α) (p fuel : Nat) (e : PyError)
    (hok : ∀ i, i < p → (fetch i).result = .ok (B i))
    (ht : ∀ i, i < p → offsetTruthy (B i).offset = true)
    (he : (fetch p).result = .error e)
    (hfuel : p < fuel) :
    get_records fetch fuel = some (.error e, p + 1) := by
  have hm : ∀ i, i < p → (fetch (0 + i)).result = .ok (B (0 + i)) := by
    intro i hi; simpa using hok i hi
  have hm2 : ∀ i, i < p → offsetTruthy (B (0 + i)).offset = true := by
    intro i hi; simpa using ht i hi
  have e1 : fuel = p + ((fuel - p - 1) + 1) := by omega
  rw [get_records, e1, getRecordsAux_advance fetch B p ((fuel - p - 1) + 1) 0 [] hm hm2]
  have e2 : 0 + p = p := by omega
  rw [e2, getRecordsAux_errStep fetch (fuel - p - 1) p _ e he]

theorem c8_witness :
    get_records fetchFailPage 3 = some (.error (.airtableError exhaustedMsg), 2) :=
  c8_page_failure_aborts Nat fetchFailPage failPageBodies 1 3
    (.airtableError exhaustedMsg) (by decide) (by decide) (by decide) (by decide)

/-- C10: a 2xx response whose JSON body lacks the `records` key contributes
the `.get("records", [])` default: `_dispatch_batch` returns the empty list
for its chunk, and `get_records` treats the page as empty — adding no
records and then continuing (cursor present) or terminating normally (cursor
absent) — with no error raised in either function. -/
theorem c10_missing_records_defaults (α β : Type) :
    (∀ (r : ReqResult β) (b : Body β), r.result = .ok b → b.records = none →
       dispatchBatchResult r = .ok []) ∧
    (∀ (fetch : Nat → ReqResult α) (fuel page : Nat) (acc : List α) (b : Body α),
       (fetch page).result = .ok b → b.records = none → offsetTruthy b.offset = true →
       getRecordsAux fetch (fuel + 1) page acc = getRecordsAux fetch fuel (page + 1) acc) ∧
    (∀ (fetch : Nat → ReqResult α) (fuel page : Nat) (acc : List α) (b : Body α),
       (fetch page).result = .ok b → b.records = none → offsetTruthy b.offset = false →
       getRecordsAux fetch (fuel + 1) page acc = some (.ok acc, page + 1)) ∧
    (∀ (fetch : Nat → ReqResult α) (fuel : Nat) (b : Body α),
       (fetch 0).result = .ok b → b.records = none → offsetTruthy b.offset = false →
       get_records fetch (fuel + 1) = some (.ok [], 1)) := by
  refine ⟨?_, ?_, ?_, ?_⟩
  · intro r b h hn
    simp [dispatchBatchResult, h, hn]
  · intro fetch fuel page acc b h hn ht
    rw [getRecordsAux_contStep fetch fuel page acc b h ht]
    simp [hn]
  · intro fetch fuel page acc b h hn ht
    rw [getRecordsAux_lastStep fetch fuel page acc b h ht]
    simp [hn]
  · intro fetch fuel b h hn ht
    rw [get_records, getRecordsAux_lastStep fetch fuel 0 [] b h ht]
    simp [hn]

theorem c10_witness :
    dispatchBatchResult (fetchNoRecords 0) = .ok [] ∧
    get_records fetchNoRecords 1 = some (.ok [], 1) := by
  constructor
  · exact (c10_missing_records_defaults Nat Nat).1 (fetchNoRecords 0) ⟨none, none⟩ rfl rfl
  · have h := (c10_missing_records_defaults Nat Nat).2.2.2 fetchNoRecords 0 ⟨none, none⟩
      rfl rfl rfl
    simpa using h

/-- C5: when every chunk dispatch succeeds, `batch_update` of `M` entries
dispatches exactly `⌈M/10⌉` logical requests whose payloads are consecutive
slices of the input in original order (flattening them restores the input),
each of at most 10 entries, and returns the per-chunk results concatenated
in chunk order. -/
theorem c5_chunked_dispatch (α β : Type) (dispatch : Nat → ReqResult β)
    (updates : List α) (R : Nat → List β)
    (hd : ∀ j, dispatchBatchResult (dispatch j) = .ok (R j)) :
    batch_update dispatch updates =
      (.ok (((List.range (chunks10 updates).length).map R).flatten), chunks10 updates) ∧
    (chunks10 updates).length = (updates.length + 9) / 10 ∧
    (∀ c ∈ chunks10 updates, c.length ≤ 10) ∧
    (chunks10 updates).flatten = updates := by
  refine ⟨?_, ?_, chunksAux_mem_le updates [] (by simp),
    by simpa using chunksAux_flatten updates []⟩
  · have h := batchUpdateGo_allOk dispatch R hd updates 0 [] [] []
    rw [batch_update, h]
    simp [chunks10, Nat.zero_add]
  · have h := chunksAux_length updates [] (by simp)
    simpa using h

theorem c5_witness :
    batch_update dispatchOne updates23 =
      (.ok (((List.range (chunks10 updates23).length).map (fun _ => [7])).flatten),
       chunks10 updates23) ∧
    (chunks10 updates23).length = (updates23.length + 9) / 10 ∧
    (∀ c ∈ chunks10 updates23, c.length ≤ 10) ∧
    (chunks10 updates23).flatten = updates23 :=
  c5_chunked_dispatch Nat Nat dispatchOne updates23 (fun _ => [7]) (fun _ => rfl)

/-- C1 counterexample: the error a caller receives from a failed
`batch_update` carries no confirmed-applied prefix.  Scenario A dispatches
chunk 0 of `updates23` successfully (10 records confirmed applied) and then
fails chunk 1 permanently; scenario B fails chunk 0 permanently (nothing
applied).  Both runs raise the identical exception value — the bare
exhausted-retries `AirtableError` — and return no results, so the error
cannot tell the caller which chunks were applied, contradicting the claim
that it carries the chunk index and the results of chunks `0 .. K-1`.  (The
failure is an exception, so it is at least not masked as success; the
instrumented dispatch traces differ, confirming the two scenarios really
applied different prefixes.) -/
theorem c1_counterexample :
    (batch_update dispatchA updates23).1 = .error (.airtableError exhaustedMsg) ∧
    (batch_update dispatchB updates23).1 = .error (.airtableError exhaustedMsg) ∧
    (batch_update dispatchA updates23).1 = (batch_update dispatchB updates23).1 ∧
    (batch_update dispatchA updates23).2 =
      [List.range 10, (List.range 10).map (fun i => i + 10)] ∧
    (batch_update dispatchB updates23).2 = [List.range 10] := by
  refine ⟨by decide, by decide, by decide, by decide, by decide⟩

/-- C1 amended: when the dispatches of chunks `0 .. K-1` succeed and chunk
`K`'s dispatch fails permanently, `batch_update` surfaces the failure to the
caller as exactly the underlying request exception — never masked as a
successful return — but that exception carries neither the chunk index `K`
nor the results of chunks `0 .. K-1`, which are discarded; chunks `0 .. K`
are the ones dispatched. -/
theorem c1_partial_failure_amended (α β : Type) (dispatch : Nat → ReqResult β)
    (updates : List α) (R : Nat → List β) (e : PyError) (K : Nat)
    (hd : ∀ j, j < K → dispatchBatchResult (dispatch j) = .ok (R j))
    (he : dispatchBatchResult (dispatch K) = .error e)
    (hK : K < (chunks10 updates).length) :
    batch_update dispatch updates = (.error e, (chunks10 updates).take (K + 1)) := by
  have h := batchUpdateGo_failAt dispatch R e K hd he updates 0 [] [] []
    (by omega) (by simpa [chunks10] using hK)
  rw [batch_update, h]
  simp [chunks10]

theorem c1_amended_witness :
    batch_update dispatchA updates23 =
      (.error (.airtableError exhaustedMsg), (chunks10 updates23).take 2) :=
  c1_partial_failure_amended Nat Nat dispatchA updates23
    (fun _ => (List.range 10).map (fun i => 100 + i)) (.airtableError exhaustedMsg) 1
    (by decide) (by decide) (by decide)
